import Mathlib

/-!
Verification development for the `cosmosis-rs` DataBlock wrapper
(`src/lib.rs`).  The wrapper is a typed marshalling layer over a native
key/value container (`c_datablock`) reached through a C ABI.  The native
container itself is not part of this repository; it is modelled here from
the specification's external-interface contract (spec §3 "Entry", §6
"External interfaces"): a two-level (section, name) namespace mapping to
type-tagged values, with a closed status enumeration.  Every definition
whose doc comment starts `Modelled from the spec:` belongs to that native
model; all other definitions are direct translations of the Rust wrapper
code in `src/lib.rs`.

Representation choices:
* `raw::c_int` is embedded as `Int` (the wrapper never computes on the
  value, it only marshals it through the ABI).
* `f64` is embedded as an opaque 64-bit pattern (`structure f64 with a
  `bits` field).  The wrapper performs no floating-point arithmetic; values
  are moved bit-for-bit, so the bit pattern is the faithful carrier.
* `Complex<f64>` (bindgen's `__BindgenComplex`) is a pair of `f64`s
  (`re`, `im`), named `Complex64` here to avoid clashing with Mathlib.
* Rust `&mut` state threading is explicit state passing: operations that
  mutate the `DataBlock` return the result together with the new block.
* The element-count cast `obj.len() as raw::c_int` in the vector putter
  and replacer (`src/lib.rs` lines 379, 392) is a truncating
  two's-complement cast and is modelled as such (`usizeAsCInt`): the
  wrapper does compute on the length, unlike on the stored values.
* Rust `CStr`/`CString`/`String` payloads are embedded as their byte
  contents (`List Nat`); a Rust `String` is its UTF-8 byte buffer, so
  `str::from_utf8` / `CString::into_string` validate and pass the bytes
  through unchanged.
* A Rust panic (`unwrap`/`expect` on the UTF-8 conversion paths) is a
  distinguished `PanicOr.panicked` outcome, separate from `Err` results.
-/

namespace CosmosisRs

/-- The native status enumeration, verbatim from `DATABLOCK_STATUS`
(`src/lib.rs` lines 23-42 list all twenty variants). -/
inductive DATABLOCK_STATUS where
  | DBS_SUCCESS
  | DBS_DATABLOCK_NULL
  | DBS_SECTION_NULL
  | DBS_SECTION_NOT_FOUND
  | DBS_NAME_NULL
  | DBS_NAME_NOT_FOUND
  | DBS_NAME_ALREADY_EXISTS
  | DBS_VALUE_NULL
  | DBS_WRONG_VALUE_TYPE
  | DBS_MEMORY_ALLOC_FAILURE
  | DBS_SIZE_NULL
  | DBS_SIZE_NONPOSITIVE
  | DBS_SIZE_INSUFFICIENT
  | DBS_NDIM_NONPOSITIVE
  | DBS_NDIM_OVERFLOW
  | DBS_NDIM_MISMATCH
  | DBS_EXTENTS_NULL
  | DBS_EXTENTS_MISMATCH
  | DBS_LOGIC_ERROR
  | DBS_USED_DEFAULT
  deriving DecidableEq

/-- The native type-tag enumeration `datablock_type_t`, covering the tags
the wrapper uses (`src/lib.rs` lines 314-429: `DBT_INT`, `DBT_BOOL`,
`DBT_DOUBLE`, `DBT_COMPLEX`, `DBT_STRING`, the 1-D array tags, and the
`DBT_UNKNOWN` scratch default of `get_type`). -/
inductive datablock_type_t where
  | DBT_INT
  | DBT_BOOL
  | DBT_DOUBLE
  | DBT_COMPLEX
  | DBT_STRING
  | DBT_INT1D
  | DBT_DOUBLE1D
  | DBT_COMPLEX1D
  | DBT_UNKNOWN
  deriving DecidableEq

/-- Rust `raw::c_int`, embedded as `Int`: the wrapper only marshals the
value through the ABI and never computes on it. -/
abbrev c_int := Int

/-- Rust `f64` as an opaque 64-bit pattern.  The wrapper moves doubles
bit-for-bit and performs no arithmetic on them. -/
structure f64 where
  bits : Nat
  deriving DecidableEq

/-- `Complex<f64>` = bindgen's `__BindgenComplex<f64>` with fields
`re` and `im` (`src/lib.rs` line 12, 326). -/
structure Complex64 where
  re : f64
  im : f64
  deriving DecidableEq

/-- Byte content of a C string (no terminating NUL, no interior NUL);
also the byte buffer of a Rust `String`/`CString`. -/
abbrev Bytes := List Nat

/-- Modelled from the spec: one stored value of the native container,
tagged with its runtime type (spec §3 "Entry": a name within a section has
exactly one type tag at a time).  One constructor per supported stored
type (four scalars, three 1-D arrays, strings). -/
inductive CosmosisValue where
  | VInt (v : c_int)
  | VBool (v : Bool)
  | VDouble (v : f64)
  | VComplex (v : Complex64)
  | VString (v : Bytes)
  | VIntArray (v : List c_int)
  | VDoubleArray (v : List f64)
  | VComplexArray (v : List Complex64)
  deriving DecidableEq

/-- Modelled from the spec: the type tag of a stored value. -/
def valueTag : CosmosisValue → datablock_type_t
  | .VInt _ => .DBT_INT
  | .VBool _ => .DBT_BOOL
  | .VDouble _ => .DBT_DOUBLE
  | .VComplex _ => .DBT_COMPLEX
  | .VString _ => .DBT_STRING
  | .VIntArray _ => .DBT_INT1D
  | .VDoubleArray _ => .DBT_DOUBLE1D
  | .VComplexArray _ => .DBT_COMPLEX1D

/-- Modelled from the spec: the native `c_datablock` store, a finite map
from (section, name) to a tagged value, represented as an association
list (spec §3: the opaque handle is a black box accessed only through its
documented entry points; the map view is its documented behaviour). -/
abbrev c_datablock := List ((String × String) × CosmosisValue)

/-- Modelled from the spec: lookup of the entry at (section, name). -/
def lookupEntry : c_datablock → String → String → Option CosmosisValue
  | [], _, _ => none
  | (k, v) :: rest, s, n => if k = (s, n) then some v else lookupEntry rest s n

/-- Modelled from the spec: overwrite the value stored at (section, name),
leaving the store unchanged when the key is absent. -/
def setEntry : c_datablock → String → String → CosmosisValue → c_datablock
  | [], _, _, _ => []
  | (k, v) :: rest, s, n, nv =>
      if k = (s, n) then (k, nv) :: rest else (k, v) :: setEntry rest s n nv

/-- Modelled from the spec: the native `c_datablock_has_value` query
(spec §6: has-value never fails, returns a boolean). -/
def c_datablock_has_value (db : c_datablock) (s n : String) : Bool :=
  (lookupEntry db s n).isSome

/-- Modelled from the spec: the native `c_datablock_get_type` entry point
(spec §6: status; name-not-found when absent).  The out-parameter `ty` is
written only on success; on failure the caller's scratch value is left in
place, which the model expresses by returning it unchanged. -/
def c_datablock_get_type (db : c_datablock) (s n : String)
    (ty : datablock_type_t) : DATABLOCK_STATUS × datablock_type_t :=
  match lookupEntry db s n with
  | some v => (.DBS_SUCCESS, valueTag v)
  | none => (.DBS_NAME_NOT_FOUND, ty)

/-- Modelled from the spec: the common shape of the native typed scalar
getters (spec §6: get scalar returns value/status; §3: type mismatches on
read are reported, never silently coerced).  `prj` is the per-type
projection out of the tagged value; the scratch out-parameter is returned
unchanged on failure. -/
def nativeGet {α : Type} (prj : CosmosisValue → Option α)
    (db : c_datablock) (s n : String) (scratch : α) : DATABLOCK_STATUS × α :=
  match lookupEntry db s n with
  | none => (.DBS_NAME_NOT_FOUND, scratch)
  | some v =>
    match prj v with
    | some x => (.DBS_SUCCESS, x)
    | none => (.DBS_WRONG_VALUE_TYPE, scratch)

/-- Modelled from the spec: the common shape of the native typed putters
(spec §3: writing with `put` to an existing name fails rather than
overwriting; §4.2: `NameAlreadyExists` if the name already holds any
value, regardless of type).  `inj` is the per-type injection into the
tagged value; a new binding is created at the front of the store. -/
def nativePut {α : Type} (inj : α → CosmosisValue)
    (db : c_datablock) (s n : String) (v : α) : DATABLOCK_STATUS × c_datablock :=
  if c_datablock_has_value db s n then (.DBS_NAME_ALREADY_EXISTS, db)
  else (.DBS_SUCCESS, ((s, n), inj v) :: db)

/-- Modelled from the spec: the common shape of the native typed replace
entry points (spec §3: `insert` succeeds by explicitly replacing; type
mismatches are reported).  Replacing an absent name reports name-not-found
and a type mismatch reports wrong-value-type; otherwise the entry is
overwritten in place. -/
def nativeReplace {α : Type} (prj : CosmosisValue → Option α)
    (inj : α → CosmosisValue)
    (db : c_datablock) (s n : String) (v : α) : DATABLOCK_STATUS × c_datablock :=
  match lookupEntry db s n with
  | none => (.DBS_NAME_NOT_FOUND, db)
  | some old =>
    match prj old with
    | some _ => (.DBS_SUCCESS, setEntry db s n (inj v))
    | none => (.DBS_WRONG_VALUE_TYPE, db)

/-- Per-type projection for `c_int` values. -/
def prjInt : CosmosisValue → Option c_int
  | .VInt v => some v
  | _ => none

/-- Per-type projection for `bool` values. -/
def prjBool : CosmosisValue → Option Bool
  | .VBool v => some v
  | _ => none

/-- Per-type projection for `f64` values. -/
def prjDouble : CosmosisValue → Option f64
  | .VDouble v => some v
  | _ => none

/-- Per-type projection for `Complex<f64>` values. -/
def prjComplex : CosmosisValue → Option Complex64
  | .VComplex v => some v
  | _ => none

/-- Per-type projection for string values. -/
def prjString : CosmosisValue → Option Bytes
  | .VString v => some v
  | _ => none

/-- Per-type projection for `Vec<c_int>` values. -/
def prjIntArray : CosmosisValue → Option (List c_int)
  | .VIntArray v => some v
  | _ => none

/-- Per-type projection for `Vec<f64>` values. -/
def prjDoubleArray : CosmosisValue → Option (List f64)
  | .VDoubleArray v => some v
  | _ => none

/-- Per-type projection for `Vec<Complex<f64>>` values. -/
def prjComplexArray : CosmosisValue → Option (List Complex64)
  | .VComplexArray v => some v
  | _ => none

/-- Modelled from the spec: `c_datablock_get_int`. -/
def c_datablock_get_int := nativeGet prjInt

/-- Modelled from the spec: `c_datablock_put_int`. -/
def c_datablock_put_int := nativePut CosmosisValue.VInt

/-- Modelled from the spec: `c_datablock_replace_int`. -/
def c_datablock_replace_int := nativeReplace prjInt CosmosisValue.VInt

/-- Modelled from the spec: `c_datablock_get_bool`. -/
def c_datablock_get_bool := nativeGet prjBool

/-- Modelled from the spec: `c_datablock_put_bool`. -/
def c_datablock_put_bool := nativePut CosmosisValue.VBool

/-- Modelled from the spec: `c_datablock_replace_bool`. -/
def c_datablock_replace_bool := nativeReplace prjBool CosmosisValue.VBool

/-- Modelled from the spec: `c_datablock_get_double`. -/
def c_datablock_get_double := nativeGet prjDouble

/-- Modelled from the spec: `c_datablock_put_double`. -/
def c_datablock_put_double := nativePut CosmosisValue.VDouble

/-- Modelled from the spec: `c_datablock_replace_double`. -/
def c_datablock_replace_double := nativeReplace prjDouble CosmosisValue.VDouble

/-- Modelled from the spec: `c_datablock_get_complex`. -/
def c_datablock_get_complex := nativeGet prjComplex

/-- Modelled from the spec: `c_datablock_put_complex`. -/
def c_datablock_put_complex := nativePut CosmosisValue.VComplex

/-- Modelled from the spec: `c_datablock_replace_complex`. -/
def c_datablock_replace_complex := nativeReplace prjComplex CosmosisValue.VComplex

/-- Modelled from the spec: the generic `c_datablock_get_array_length`
query (spec §6: signed length, negative on absent-or-wrong-type).  Any
stored 1-D array reports its length; a non-array entry or an absent name
reports `-1`. -/
def c_datablock_get_array_length (db : c_datablock) (s n : String) : Int :=
  match lookupEntry db s n with
  | some (.VIntArray xs) => (xs.length : Int)
  | some (.VDoubleArray xs) => (xs.length : Int)
  | some (.VComplexArray xs) => (xs.length : Int)
  | some _ => -1
  | none => -1

/-- Modelled from the spec: the common shape of the native preallocated
1-D array getters (spec §6: filled buffer / status; size-insufficient
distinguished from wrong-type).  Takes the caller's buffer and its
capacity, returns the status, the (possibly filled) buffer and the
written length. -/
def nativeGetArray {α : Type} (prj : CosmosisValue → Option (List α))
    (db : c_datablock) (s n : String) (buf : List α) (size : Int) :
    DATABLOCK_STATUS × List α × Int :=
  match lookupEntry db s n with
  | none => (.DBS_NAME_NOT_FOUND, buf, size)
  | some v =>
    match prj v with
    | none => (.DBS_WRONG_VALUE_TYPE, buf, size)
    | some xs =>
      if (xs.length : Int) ≤ size then (.DBS_SUCCESS, xs, (xs.length : Int))
      else (.DBS_SIZE_INSUFFICIENT, buf, (xs.length : Int))

/-- Modelled from the spec: `c_datablock_get_double_array_1d_preallocated`. -/
def c_datablock_get_double_array_1d := nativeGetArray prjDoubleArray

/-- Modelled from the spec: `c_datablock_get_int_array_1d_preallocated`. -/
def c_datablock_get_int_array_1d := nativeGetArray prjIntArray

/-- Modelled from the spec: `c_datablock_get_complex_array_1d_preallocated`. -/
def c_datablock_get_complex_array_1d := nativeGetArray prjComplexArray

/-- The Rust cast `usize as raw::c_int` applied to a length: truncate to
the low 32 bits and reinterpret in two's complement.  Used by the vector
putters and replacers, which pass `obj.len() as raw::c_int`
(`src/lib.rs` lines 379 and 392). -/
def usizeAsCInt (len : Nat) : Int :=
  let m : Nat := len % 2 ^ 32
  if m < 2 ^ 31 then (m : Int) else (m : Int) - 2 ^ 32

/-- Modelled from the spec: the common shape of the native 1-D array
putters, which receive the caller's buffer together with a signed element
count (spec §6: buffer, capacity; §3: put fails on an existing name; §4.4:
zero-length arrays are valid, so only a negative count is rejected, with
the non-positive-size status of §3).  The stored array is the first `sz`
elements of the buffer — exactly what the C side reads from the
pointer. -/
def nativePutArray {α : Type} (inj : List α → CosmosisValue)
    (db : c_datablock) (s n : String) (buf : List α) (sz : Int) :
    DATABLOCK_STATUS × c_datablock :=
  if sz < 0 then (.DBS_SIZE_NONPOSITIVE, db)
  else if c_datablock_has_value db s n then (.DBS_NAME_ALREADY_EXISTS, db)
  else (.DBS_SUCCESS, ((s, n), inj (buf.take sz.toNat)) :: db)

/-- Modelled from the spec: the common shape of the native 1-D array
replace entry points, which likewise receive buffer plus signed count; a
negative count is rejected, an absent name reports name-not-found, a
mismatched tag reports wrong-value-type, otherwise the entry is
overwritten with the first `sz` elements of the buffer. -/
def nativeReplaceArray {α : Type} (prj : CosmosisValue → Option (List α))
    (inj : List α → CosmosisValue)
    (db : c_datablock) (s n : String) (buf : List α) (sz : Int) :
    DATABLOCK_STATUS × c_datablock :=
  if sz < 0 then (.DBS_SIZE_NONPOSITIVE, db)
  else
    match lookupEntry db s n with
    | none => (.DBS_NAME_NOT_FOUND, db)
    | some old =>
      match prj old with
      | some _ => (.DBS_SUCCESS, setEntry db s n (inj (buf.take sz.toNat)))
      | none => (.DBS_WRONG_VALUE_TYPE, db)

/-- Modelled from the spec: `c_datablock_put_double_array_1d`. -/
def c_datablock_put_double_array_1d := nativePutArray CosmosisValue.VDoubleArray

/-- Modelled from the spec: `c_datablock_put_int_array_1d`. -/
def c_datablock_put_int_array_1d := nativePutArray CosmosisValue.VIntArray

/-- Modelled from the spec: `c_datablock_put_complex_array_1d`. -/
def c_datablock_put_complex_array_1d := nativePutArray CosmosisValue.VComplexArray

/-- Modelled from the spec: `c_datablock_replace_double_array_1d`. -/
def c_datablock_replace_double_array_1d :=
  nativeReplaceArray prjDoubleArray CosmosisValue.VDoubleArray

/-- Modelled from the spec: `c_datablock_replace_int_array_1d`. -/
def c_datablock_replace_int_array_1d :=
  nativeReplaceArray prjIntArray CosmosisValue.VIntArray

/-- Modelled from the spec: `c_datablock_replace_complex_array_1d`. -/
def c_datablock_replace_complex_array_1d :=
  nativeReplaceArray prjComplexArray CosmosisValue.VComplexArray

/-- Modelled from the spec: `c_datablock_get_string` (spec §6: the native
getter yields a native-heap-owned text pointer on success; on failure the
out-pointer is unused, modelled as the empty buffer). -/
def c_datablock_get_string (db : c_datablock) (s n : String) :
    DATABLOCK_STATUS × Bytes :=
  match lookupEntry db s n with
  | none => (.DBS_NAME_NOT_FOUND, [])
  | some v =>
    match prjString v with
    | some bytes => (.DBS_SUCCESS, bytes)
    | none => (.DBS_WRONG_VALUE_TYPE, [])

/-- Modelled from the spec: `c_datablock_put_string`. -/
def c_datablock_put_string := nativePut CosmosisValue.VString

/-- Modelled from the spec: `c_datablock_replace_string`. -/
def c_datablock_replace_string := nativeReplace prjString CosmosisValue.VString

/-- `CosmosisError` (`src/lib.rs` lines 50-53): a status kind plus an
optional human-readable reason. -/
structure CosmosisError where
  kind : DATABLOCK_STATUS
  reason : Option String
  deriving DecidableEq

/-- `CosmosisResult<T>` (`src/lib.rs` line 101). -/
abbrev CosmosisResult (α : Type) := Except CosmosisError α

/-- The `wrap_cosmosis_result!` macro (`src/lib.rs` lines 103-118): success
becomes `Ok obj`, any other status becomes an error of that kind carrying
the formatted reason (`none` for the one-argument form). -/
def wrap_cosmosis_result {α : Type} (err : DATABLOCK_STATUS) (obj : α)
    (reason : Option String) : CosmosisResult α :=
  if err = .DBS_SUCCESS then .ok obj
  else .error { kind := err, reason := reason }

/-- `DataBlock` (`src/lib.rs` lines 122-124): owns one native handle.
Rust mutation through `&mut self` is explicit state passing here. -/
structure DataBlock where
  ptr : c_datablock
  deriving DecidableEq

/-- `DataBlock::contains` (`src/lib.rs` lines 157-163). -/
def DataBlock.contains (db : DataBlock) (sec n : String) : Bool :=
  c_datablock_has_value db.ptr sec n

/-- The status post-processing of `DataBlock::get_type`
(`src/lib.rs` lines 182-186): `None` when the native query reports
`DBS_NAME_NOT_FOUND`, otherwise `Some` of the out-parameter's value. -/
def getTypeWrap (result : DATABLOCK_STATUS) (ty : datablock_type_t) :
    Option datablock_type_t :=
  if result = .DBS_NAME_NOT_FOUND then none else some ty

/-- `DataBlock::get_type` (`src/lib.rs` lines 174-187): the scratch
out-parameter starts as `DBT_UNKNOWN`, the native type query runs, and the
result is post-processed by `getTypeWrap`. -/
def DataBlock.get_type (db : DataBlock) (sec n : String) :
    Option datablock_type_t :=
  let ty : datablock_type_t := .DBT_UNKNOWN
  let out := c_datablock_get_type db.ptr sec n ty
  getTypeWrap out.1 out.2

/-- The body of `direct_get_datablock` generated by
`gen_cosmosis_data_type!` (`src/lib.rs` lines 276-286), parametrised by
the native getter and the scratch default exactly as the macro is: a
scratch value is allocated, the native getter fills it on success, and the
status is wrapped with the formatted reason. -/
def directGetScalar {α : Type}
    (getter : c_datablock → String → String → α → DATABLOCK_STATUS × α)
    (defaultVal : α) (db : DataBlock) (sec n : String) : CosmosisResult α :=
  let out := getter db.ptr sec n defaultVal
  wrap_cosmosis_result out.1 out.2
    (some s!"Could not get value at (section, name): ({sec}, {n})")

/-- The body of `direct_put_datablock` generated by
`gen_cosmosis_data_type!` (`src/lib.rs` lines 288-297), parametrised by
the native putter. -/
def directPutScalar {α : Type}
    (putter : c_datablock → String → String → α → DATABLOCK_STATUS × c_datablock)
    (db : DataBlock) (sec n : String) (obj : α) :
    CosmosisResult Unit × DataBlock :=
  let out := putter db.ptr sec n obj
  (wrap_cosmosis_result out.1 ()
     (some s!"Could not put value at (section, name): ({sec}, {n})"),
   ⟨out.2⟩)

/-- The body of `direct_replace_datablock` generated by
`gen_cosmosis_data_type!` (`src/lib.rs` lines 299-309): first
`direct_get_datablock` runs and its failure propagates through `?` (the
block is returned unmutated); on a successful read the native replace
entry point runs and its status is wrapped around the old value.  (The
reason text of the failure says "get", faithfully to line 307.) -/
def directReplaceScalar {α : Type}
    (getter : c_datablock → String → String → α → DATABLOCK_STATUS × α)
    (defaultVal : α)
    (replacer : c_datablock → String → String → α → DATABLOCK_STATUS × c_datablock)
    (db : DataBlock) (sec n : String) (obj : α) :
    CosmosisResult α × DataBlock :=
  match directGetScalar getter defaultVal db sec n with
  | .error e => (.error e, db)
  | .ok result =>
    let out := replacer db.ptr sec n obj
    (wrap_cosmosis_result out.1 result
       (some s!"Could not get value at (section, name): ({sec}, {n})"),
     ⟨out.2⟩)

/-- `DataBlock::insert` (`src/lib.rs` lines 205-215), for the scalar
instantiations (the only `Sized` storable types, hence the only types the
generic `insert` accepts), parametrised like the scalar combinators: if
the key is present, replace and wrap the old value in `Some`; otherwise
put and yield `None`. -/
def insertScalar {α : Type}
    (getter : c_datablock → String → String → α → DATABLOCK_STATUS × α)
    (defaultVal : α)
    (putter replacer : c_datablock → String → String → α → DATABLOCK_STATUS × c_datablock)
    (db : DataBlock) (sec n : String) (obj : α) :
    CosmosisResult (Option α) × DataBlock :=
  if db.contains sec n then
    let out := directReplaceScalar getter defaultVal replacer db sec n obj
    (out.1.map (fun s => some s), out.2)
  else
    let out := directPutScalar putter db sec n obj
    (out.1.map (fun _ => none), out.2)

/-- `<raw::c_int as CosmosisDataType>::direct_get_datablock`
(`src/lib.rs` line 314: default `0`). -/
def DataBlock.getInt (db : DataBlock) (sec n : String) : CosmosisResult c_int :=
  directGetScalar c_datablock_get_int 0 db sec n

/-- `<raw::c_int as CosmosisDataType>::direct_put_datablock`. -/
def DataBlock.putInt (db : DataBlock) (sec n : String) (v : c_int) :
    CosmosisResult Unit × DataBlock :=
  directPutScalar c_datablock_put_int db sec n v

/-- `<raw::c_int as CosmosisDataType>::direct_replace_datablock`. -/
def DataBlock.replaceInt (db : DataBlock) (sec n : String) (v : c_int) :
    CosmosisResult c_int × DataBlock :=
  directReplaceScalar c_datablock_get_int 0 c_datablock_replace_int db sec n v

/-- `DataBlock::insert::<raw::c_int>`. -/
def DataBlock.insertInt (db : DataBlock) (sec n : String) (v : c_int) :
    CosmosisResult (Option c_int) × DataBlock :=
  insertScalar c_datablock_get_int 0 c_datablock_put_int c_datablock_replace_int
    db sec n v

/-- `<bool as CosmosisDataType>::direct_get_datablock`
(`src/lib.rs` line 318: default `false`). -/
def DataBlock.getBool (db : DataBlock) (sec n : String) : CosmosisResult Bool :=
  directGetScalar c_datablock_get_bool false db sec n

/-- `<bool as CosmosisDataType>::direct_put_datablock`. -/
def DataBlock.putBool (db : DataBlock) (sec n : String) (v : Bool) :
    CosmosisResult Unit × DataBlock :=
  directPutScalar c_datablock_put_bool db sec n v

/-- `<bool as CosmosisDataType>::direct_replace_datablock`. -/
def DataBlock.replaceBool (db : DataBlock) (sec n : String) (v : Bool) :
    CosmosisResult Bool × DataBlock :=
  directReplaceScalar c_datablock_get_bool false c_datablock_replace_bool db sec n v

/-- `DataBlock::insert::<bool>`. -/
def DataBlock.insertBool (db : DataBlock) (sec n : String) (v : Bool) :
    CosmosisResult (Option Bool) × DataBlock :=
  insertScalar c_datablock_get_bool false c_datablock_put_bool
    c_datablock_replace_bool db sec n v

/-- `<f64 as CosmosisDataType>::direct_get_datablock`
(`src/lib.rs` line 322: default `0.0`, the all-zero bit pattern). -/
def DataBlock.getDouble (db : DataBlock) (sec n : String) : CosmosisResult f64 :=
  directGetScalar c_datablock_get_double ⟨0⟩ db sec n

/-- `<f64 as CosmosisDataType>::direct_put_datablock`. -/
def DataBlock.putDouble (db : DataBlock) (sec n : String) (v : f64) :
    CosmosisResult Unit × DataBlock :=
  directPutScalar c_datablock_put_double db sec n v

/-- `<f64 as CosmosisDataType>::direct_replace_datablock`. -/
def DataBlock.replaceDouble (db : DataBlock) (sec n : String) (v : f64) :
    CosmosisResult f64 × DataBlock :=
  directReplaceScalar c_datablock_get_double ⟨0⟩ c_datablock_replace_double
    db sec n v

/-- `DataBlock::insert::<f64>`. -/
def DataBlock.insertDouble (db : DataBlock) (sec n : String) (v : f64) :
    CosmosisResult (Option f64) × DataBlock :=
  insertScalar c_datablock_get_double ⟨0⟩ c_datablock_put_double
    c_datablock_replace_double db sec n v

/-- `<Complex<f64> as CosmosisDataType>::direct_get_datablock`
(`src/lib.rs` line 326: default `Complex { re: 0.0, im: 0.0 }`). -/
def DataBlock.getComplex (db : DataBlock) (sec n : String) :
    CosmosisResult Complex64 :=
  directGetScalar c_datablock_get_complex ⟨⟨0⟩, ⟨0⟩⟩ db sec n

/-- `<Complex<f64> as CosmosisDataType>::direct_put_datablock`. -/
def DataBlock.putComplex (db : DataBlock) (sec n : String) (v : Complex64) :
    CosmosisResult Unit × DataBlock :=
  directPutScalar c_datablock_put_complex db sec n v

/-- `<Complex<f64> as CosmosisDataType>::direct_replace_datablock`. -/
def DataBlock.replaceComplex (db : DataBlock) (sec n : String) (v : Complex64) :
    CosmosisResult Complex64 × DataBlock :=
  directReplaceScalar c_datablock_get_complex ⟨⟨0⟩, ⟨0⟩⟩
    c_datablock_replace_complex db sec n v

/-- `DataBlock::insert::<Complex<f64>>`. -/
def DataBlock.insertComplex (db : DataBlock) (sec n : String) (v : Complex64) :
    CosmosisResult (Option Complex64) × DataBlock :=
  insertScalar c_datablock_get_complex ⟨⟨0⟩, ⟨0⟩⟩ c_datablock_put_complex
    c_datablock_replace_complex db sec n v

/-- The body of `direct_get_datablock` generated by
`gen_cosmosis_vector_type!` (`src/lib.rs` lines 341-371), parametrised by
the typed preallocated native getter as the macro is.  The generic
`c_datablock_get_array_length` probe runs first; a negative length is
disambiguated by a presence check (wrong type when present, name not
found when absent); otherwise a buffer of exactly that length is created
(`Vec::with_capacity` + `set_len`: contents uninitialised, modelled by
replicating an arbitrary `uninit` element) and the typed getter fills it. -/
def vecDirectGet {α : Type}
    (getter : c_datablock → String → String → List α → Int →
      DATABLOCK_STATUS × List α × Int)
    (uninit : α) (db : DataBlock) (sec n : String) :
    CosmosisResult (List α) :=
  let size := c_datablock_get_array_length db.ptr sec n
  if size < 0 then
    if db.contains sec n then
      .error { kind := .DBS_WRONG_VALUE_TYPE,
               reason := some s!"Not a 1D Double array at (section, name): ({sec}, {n})" }
    else
      .error { kind := .DBS_NAME_NOT_FOUND,
               reason := some s!"No value at (section, name): ({sec}, {n})" }
  else
    let vec := List.replicate size.toNat uninit
    let out := getter db.ptr sec n vec size
    wrap_cosmosis_result out.1 out.2.1
      (some s!"Could not get value at (section, name): ({sec}, {n})")

/-- The body of `direct_put_datablock` generated by
`gen_cosmosis_vector_type!` (`src/lib.rs` lines 373-383): the slice's
pointer (the list itself in this model) and its element count cast with
`obj.len() as raw::c_int` (line 379) — a truncating two's-complement
cast, modelled by `usizeAsCInt` — are forwarded to the native putter. -/
def vecDirectPut {α : Type}
    (putter : c_datablock → String → String → List α → Int →
      DATABLOCK_STATUS × c_datablock)
    (db : DataBlock) (sec n : String) (obj : List α) :
    CosmosisResult Unit × DataBlock :=
  let out := putter db.ptr sec n obj (usizeAsCInt obj.length)
  (wrap_cosmosis_result out.1 ()
     (some s!"Could not put value at (section, name): ({sec}, {n})"),
   ⟨out.2⟩)

/-- The body of `direct_replace_datablock` generated by
`gen_cosmosis_vector_type!` (`src/lib.rs` lines 385-396): read first
(propagating failure with the block unmutated), then run the native
replace — with the element count cast by `obj.len() as raw::c_int`
(line 392), modelled by `usizeAsCInt` — and wrap its status around the
old vector. -/
def vecDirectReplace {α : Type}
    (getter : c_datablock → String → String → List α → Int →
      DATABLOCK_STATUS × List α × Int)
    (uninit : α)
    (replacer : c_datablock → String → String → List α → Int →
      DATABLOCK_STATUS × c_datablock)
    (db : DataBlock) (sec n : String) (obj : List α) :
    CosmosisResult (List α) × DataBlock :=
  match vecDirectGet getter uninit db sec n with
  | .error e => (.error e, db)
  | .ok result =>
    let out := replacer db.ptr sec n obj (usizeAsCInt obj.length)
    (wrap_cosmosis_result out.1 result
       (some s!"Could not replace value at (section, name): ({sec}, {n})"),
     ⟨out.2⟩)

/-- `<Vec<f64> as CosmosisDataType>::direct_get_datablock`
(`src/lib.rs` line 412). -/
def DataBlock.getVecDouble (db : DataBlock) (sec n : String) :
    CosmosisResult (List f64) :=
  vecDirectGet c_datablock_get_double_array_1d ⟨0⟩ db sec n

/-- `<Vec<f64> as CosmosisDataType>::direct_put_datablock`. -/
def DataBlock.putVecDouble (db : DataBlock) (sec n : String) (obj : List f64) :
    CosmosisResult Unit × DataBlock :=
  vecDirectPut c_datablock_put_double_array_1d db sec n obj

/-- `<Vec<f64> as CosmosisDataType>::direct_replace_datablock`. -/
def DataBlock.replaceVecDouble (db : DataBlock) (sec n : String)
    (obj : List f64) : CosmosisResult (List f64) × DataBlock :=
  vecDirectReplace c_datablock_get_double_array_1d ⟨0⟩
    c_datablock_replace_double_array_1d db sec n obj

/-- `<Vec<raw::c_int> as CosmosisDataType>::direct_get_datablock`
(`src/lib.rs` line 416). -/
def DataBlock.getVecInt (db : DataBlock) (sec n : String) :
    CosmosisResult (List c_int) :=
  vecDirectGet c_datablock_get_int_array_1d 0 db sec n

/-- `<Vec<raw::c_int> as CosmosisDataType>::direct_put_datablock`. -/
def DataBlock.putVecInt (db : DataBlock) (sec n : String) (obj : List c_int) :
    CosmosisResult Unit × DataBlock :=
  vecDirectPut c_datablock_put_int_array_1d db sec n obj

/-- `<Vec<Complex<f64>> as CosmosisDataType>::direct_get_datablock`
(`src/lib.rs` line 420). -/
def DataBlock.getVecComplex (db : DataBlock) (sec n : String) :
    CosmosisResult (List Complex64) :=
  vecDirectGet c_datablock_get_complex_array_1d ⟨⟨0⟩, ⟨0⟩⟩ db sec n

/-- `<Vec<Complex<f64>> as CosmosisDataType>::direct_put_datablock`. -/
def DataBlock.putVecComplex (db : DataBlock) (sec n : String)
    (obj : List Complex64) : CosmosisResult Unit × DataBlock :=
  vecDirectPut c_datablock_put_complex_array_1d db sec n obj

/-- Outcome of a Rust computation that may panic: either the computed
value or a panic with its message.  Used for code paths containing
`unwrap`/`expect` on fallible conversions. -/
inductive PanicOr (α : Type) where
  | ok (a : α)
  | panicked (msg : String)
  deriving DecidableEq

/-- Whether a UTF-8 continuation byte (`0x80..=0xBF`). -/
def contByte (b : Nat) : Bool := 0x80 ≤ b && b ≤ 0xBF

/-- Strict UTF-8 validity of a byte sequence, as checked by Rust's
`str::from_utf8` (`CStr::to_str`): 1-byte `00..7F`; 2-byte `C2..DF` +
continuation; 3-byte `E0 A0..BF`, `E1..EC`, `ED 80..9F` (no surrogates),
`EE..EF`, each followed by continuations; 4-byte `F0 90..BF`, `F1..F3`,
`F4 80..8F` (≤ U+10FFFF), each followed by continuations. -/
def validUTF8 : List Nat → Bool
  | [] => true
  | b :: rest =>
    if b ≤ 0x7F then validUTF8 rest
    else if 0xC2 ≤ b && b ≤ 0xDF then
      match rest with
      | c1 :: r => contByte c1 && validUTF8 r
      | [] => false
    else if b = 0xE0 then
      match rest with
      | c1 :: c2 :: r => (0xA0 ≤ c1 && c1 ≤ 0xBF) && contByte c2 && validUTF8 r
      | _ => false
    else if 0xE1 ≤ b && b ≤ 0xEC then
      match rest with
      | c1 :: c2 :: r => contByte c1 && contByte c2 && validUTF8 r
      | _ => false
    else if b = 0xED then
      match rest with
      | c1 :: c2 :: r => (0x80 ≤ c1 && c1 ≤ 0x9F) && contByte c2 && validUTF8 r
      | _ => false
    else if 0xEE ≤ b && b ≤ 0xEF then
      match rest with
      | c1 :: c2 :: r => contByte c1 && contByte c2 && validUTF8 r
      | _ => false
    else if b = 0xF0 then
      match rest with
      | c1 :: c2 :: c3 :: r =>
          (0x90 ≤ c1 && c1 ≤ 0xBF) && contByte c2 && contByte c3 && validUTF8 r
      | _ => false
    else if 0xF1 ≤ b && b ≤ 0xF3 then
      match rest with
      | c1 :: c2 :: c3 :: r =>
          contByte c1 && contByte c2 && contByte c3 && validUTF8 r
      | _ => false
    else if b = 0xF4 then
      match rest with
      | c1 :: c2 :: c3 :: r =>
          (0x80 ≤ c1 && c1 ≤ 0x8F) && contByte c2 && contByte c3 && validUTF8 r
      | _ => false
    else false

/-- `<CString as CosmosisDataType>::direct_get_datablock`
(`src/lib.rs` lines 432-452).  The native string getter runs; the
`wrap_cosmosis_result!` macro is textual, so the buffer-consuming block
(`CStr::from_ptr` / `to_str().unwrap()` / copy / `libc::free`) is
evaluated only in the success branch.  `to_str().unwrap()` panics when the
native buffer is not valid UTF-8; otherwise the bytes are copied into a
caller-owned `CString` (the byte list itself in this model). -/
def cstringDirectGet (db : DataBlock) (sec n : String) :
    PanicOr (CosmosisResult Bytes) :=
  let out := c_datablock_get_string db.ptr sec n
  if out.1 = .DBS_SUCCESS then
    if validUTF8 out.2 then .ok (.ok out.2)
    else .panicked "called Result::unwrap on an Err value: Utf8Error"
  else
    .ok (.error { kind := out.1,
                  reason := some s!"Could not get value at (section, name): ({sec}, {n})" })

/-- `<CString as CosmosisDataType>::direct_put_datablock`
(`src/lib.rs` lines 454-463). -/
def cstringDirectPut (db : DataBlock) (sec n : String) (obj : Bytes) :
    CosmosisResult Unit × DataBlock :=
  let out := c_datablock_put_string db.ptr sec n obj
  (wrap_cosmosis_result out.1 ()
     (some s!"Could not put value at (section, name): ({sec}, {n})"),
   ⟨out.2⟩)

/-- `<CString as CosmosisDataType>::direct_replace_datablock`
(`src/lib.rs` lines 465-475): read first (which may itself panic on an
invalid stored buffer), propagate failure, otherwise run the native
replace and wrap its status around the old string. -/
def cstringDirectReplace (db : DataBlock) (sec n : String) (obj : Bytes) :
    PanicOr (CosmosisResult Bytes × DataBlock) :=
  match cstringDirectGet db sec n with
  | .panicked m => .panicked m
  | .ok (.error e) => .ok (.error e, db)
  | .ok (.ok result) =>
    let out := c_datablock_replace_string db.ptr sec n obj
    .ok (wrap_cosmosis_result out.1 result
           (some s!"Could not replace value at (section, name): ({sec}, {n})"),
         ⟨out.2⟩)

/-- `CString::into_string`: UTF-8 validation; on success a Rust `String`
whose buffer is the same bytes. -/
def intoString (bytes : Bytes) : Option Bytes :=
  if validUTF8 bytes then some bytes else none

/-- `<String as CosmosisGettable>::get_datablock` (`src/lib.rs` lines
478-484): delegate to the `CString` getter, then
`into_string().expect("DataBlock should contain valid UTF-8")`. -/
def DataBlock.getString (db : DataBlock) (sec n : String) :
    PanicOr (CosmosisResult Bytes) :=
  match cstringDirectGet db sec n with
  | .panicked m => .panicked m
  | .ok (.error e) => .ok (.error e)
  | .ok (.ok cstr) =>
    match intoString cstr with
    | some s => .ok (.ok s)
    | none => .panicked "DataBlock should contain valid UTF-8"

/-- `<str as CosmosisStorable>::put_datablock` (`src/lib.rs` lines
490-492): wrap the `str` bytes in a `CString` and delegate. -/
def DataBlock.putStr (db : DataBlock) (sec n : String) (obj : Bytes) :
    CosmosisResult Unit × DataBlock :=
  cstringDirectPut db sec n obj

/-- Decidable equality of results, so that concrete witnesses can be
settled by `decide`. -/
def exceptDecEq {ε α : Type} [DecidableEq ε] [DecidableEq α] :
    DecidableEq (Except ε α)
  | .ok a, .ok b =>
    if h : a = b then .isTrue (by rw [h])
    else .isFalse (by intro hc; cases hc; exact h rfl)
  | .ok _, .error _ => .isFalse (by intro hc; cases hc)
  | .error _, .ok _ => .isFalse (by intro hc; cases hc)
  | .error e, .error f =>
    if h : e = f then .isTrue (by rw [h])
    else .isFalse (by intro hc; cases hc; exact h rfl)

instance {ε α : Type} [DecidableEq ε] [DecidableEq α] :
    DecidableEq (Except ε α) := exceptDecEq

/-- The status kind of an error result, `none` on success.  Used to state
claims of the form "returns an error whose kind is ...". -/
def errKind {α : Type} : CosmosisResult α → Option DATABLOCK_STATUS
  | .error e => some e.kind
  | .ok _ => none

/-- The status kind of an error result behind `PanicOr`; `none` on
success or panic. -/
def panicErrKind {α : Type} : PanicOr (CosmosisResult α) → Option DATABLOCK_STATUS
  | .ok r => errKind r
  | .panicked _ => none

/-- Whether a `PanicOr` outcome is a panic. -/
def isPanicked {α : Type} : PanicOr α → Bool
  | .panicked _ => true
  | .ok _ => false

/-! ### Shared lemmas about the native store model -/

theorem lookupEntry_cons_self (st : c_datablock) (s n : String)
    (v : CosmosisValue) : lookupEntry (((s, n), v) :: st) s n = some v := by
  simp [lookupEntry]

theorem hasValue_cons_self (st : c_datablock) (s n : String)
    (v : CosmosisValue) : c_datablock_has_value (((s, n), v) :: st) s n = true := by
  simp [c_datablock_has_value, lookupEntry_cons_self]

theorem lookupEntry_setEntry_self (st : c_datablock) (s n : String)
    (w nv : CosmosisValue) (h : lookupEntry st s n = some w) :
    lookupEntry (setEntry st s n nv) s n = some nv := by
  induction st with
  | nil => simp [lookupEntry] at h
  | cons kv rest ih =>
    obtain ⟨k, v⟩ := kv
    by_cases hk : k = (s, n)
    · subst hk
      simp [setEntry, lookupEntry]
    · simp [setEntry, lookupEntry, hk] at h ⊢
      exact ih h

theorem wrap_error_kind {α : Type} (err : DATABLOCK_STATUS) (obj : α)
    (r : Option String) (e : CosmosisError)
    (h : wrap_cosmosis_result err obj r = .error e) :
    e.kind = err ∧ err ≠ .DBS_SUCCESS := by
  unfold wrap_cosmosis_result at h
  split at h
  · exact absurd h (by simp)
  · cases h
    exact ⟨rfl, by assumption⟩

/-! ### Claims -/

/-- C4 (amended): `DataBlock::get_type` post-processes the native type
query by `getTypeWrap`, and `getTypeWrap` returns `none` exactly when the
native status is `DBS_NAME_NOT_FOUND`; every other status — success or
failure — yields `some` of the out-parameter's value (reporting the entry
as present), not `none`. -/
theorem get_type_none_iff_name_not_found :
    ∀ (db : DataBlock) (sec n : String),
      db.get_type sec n =
        getTypeWrap (c_datablock_get_type db.ptr sec n .DBT_UNKNOWN).1
          (c_datablock_get_type db.ptr sec n .DBT_UNKNOWN).2 ∧
      ∀ (result : DATABLOCK_STATUS) (ty : datablock_type_t),
        (getTypeWrap result ty = none ↔ result = .DBS_NAME_NOT_FOUND) := by
  refine fun db sec n => ⟨rfl, fun result ty => ?_⟩
  unfold getTypeWrap
  split <;> simp_all

/-- C4 counterexample: for the non-success status `DBS_SECTION_NULL`
(which is not `DBS_NAME_NOT_FOUND`), the `get_type` post-processing does
not report the entry as absent — it returns `some DBT_UNKNOWN`, refuting
the claim that every other non-success status is also reported as
absent. -/
theorem get_type_other_status_not_none :
    getTypeWrap DATABLOCK_STATUS.DBS_SECTION_NULL datablock_type_t.DBT_UNKNOWN ≠
      none ∧
    DATABLOCK_STATUS.DBS_SECTION_NULL ≠ DATABLOCK_STATUS.DBS_SUCCESS ∧
    DATABLOCK_STATUS.DBS_SECTION_NULL ≠ DATABLOCK_STATUS.DBS_NAME_NOT_FOUND := by
  refine ⟨?_, by decide, by decide⟩
  decide

/-- C5: whenever the native array-length probe reports a negative length,
the vector getters (for all three element types) return
`DBS_WRONG_VALUE_TYPE` when the entry is present and `DBS_NAME_NOT_FOUND`
when it is absent — never an error carrying the ambiguous negative
length. -/
theorem vec_get_negative_length_disambiguated
    (db : DataBlock) (sec n : String)
    (h : c_datablock_get_array_length db.ptr sec n < 0) :
    errKind (db.getVecDouble sec n) =
      some (if db.contains sec n then DATABLOCK_STATUS.DBS_WRONG_VALUE_TYPE
            else DATABLOCK_STATUS.DBS_NAME_NOT_FOUND) ∧
    errKind (db.getVecInt sec n) =
      some (if db.contains sec n then DATABLOCK_STATUS.DBS_WRONG_VALUE_TYPE
            else DATABLOCK_STATUS.DBS_NAME_NOT_FOUND) ∧
    errKind (db.getVecComplex sec n) =
      some (if db.contains sec n then DATABLOCK_STATUS.DBS_WRONG_VALUE_TYPE
            else DATABLOCK_STATUS.DBS_NAME_NOT_FOUND) := by
  unfold DataBlock.getVecDouble DataBlock.getVecInt DataBlock.getVecComplex
    vecDirectGet
  by_cases hc : db.contains sec n <;> simp [h, hc, errKind]

/-- Witness for C5 at the empty block: the length probe reports `-1`,
the entry is absent, and the vector getter reports name-not-found. -/
theorem vec_get_negative_length_disambiguated_witness :
    c_datablock_get_array_length (DataBlock.mk []).ptr "s" "n" < 0 ∧
    errKind ((DataBlock.mk []).getVecDouble "s" "n") =
      some (if (DataBlock.mk []).contains "s" "n"
            then DATABLOCK_STATUS.DBS_WRONG_VALUE_TYPE
            else DATABLOCK_STATUS.DBS_NAME_NOT_FOUND) :=
  ⟨by decide,
   (vec_get_negative_length_disambiguated ⟨[]⟩ "s" "n" (by decide)).1⟩

/-- C7: scalar `direct_replace_datablock` first performs the read.  If the
read fails, the read error propagates, the block is unchanged, and the
native replace entry point is never consulted (the outcome is the same
for every possible replacer).  If the read succeeds, the native replace
runs: on `DBS_SUCCESS` the old value is returned together with the
replacer's new store; on any other status the result is the error from
the replace call and the pre-read old value is discarded. -/
theorem replace_reads_then_replaces {α : Type}
    (getter : c_datablock → String → String → α → DATABLOCK_STATUS × α)
    (defaultVal : α) (db : DataBlock) (sec n : String) (obj : α) :
    (∀ (e : CosmosisError)
       (replacer : c_datablock → String → String → α → DATABLOCK_STATUS × c_datablock),
       directGetScalar getter defaultVal db sec n = .error e →
       directReplaceScalar getter defaultVal replacer db sec n obj = (.error e, db)) ∧
    (∀ (old : α)
       (replacer : c_datablock → String → String → α → DATABLOCK_STATUS × c_datablock),
       directGetScalar getter defaultVal db sec n = .ok old →
       ((replacer db.ptr sec n obj).1 = .DBS_SUCCESS →
          directReplaceScalar getter defaultVal replacer db sec n obj =
            (.ok old, ⟨(replacer db.ptr sec n obj).2⟩)) ∧
       ((replacer db.ptr sec n obj).1 ≠ .DBS_SUCCESS →
          directReplaceScalar getter defaultVal replacer db sec n obj =
            (.error { kind := (replacer db.ptr sec n obj).1,
                      reason := some s!"Could not get value at (section, name): ({sec}, {n})" },
             ⟨(replacer db.ptr sec n obj).2⟩))) := by
  constructor
  · intro e replacer h
    unfold directReplaceScalar
    rw [h]
  · intro old replacer h
    constructor
    · intro hs
      unfold directReplaceScalar
      rw [h]
      simp [wrap_cosmosis_result, hs]
    · intro hs
      unfold directReplaceScalar
      rw [h]
      simp [wrap_cosmosis_result, hs]

/-- Witness for C7 at a concrete failing read: on the empty block the
`c_int` read reports name-not-found, so replace propagates that error,
leaves the block unchanged, and the concrete native replacer is never
consulted. -/
theorem replace_reads_then_replaces_witness :
    directReplaceScalar c_datablock_get_int 0 c_datablock_replace_int
      (DataBlock.mk []) "s" "n" 7 =
      (.error { kind := .DBS_NAME_NOT_FOUND,
                reason := some "Could not get value at (section, name): (s, n)" },
       DataBlock.mk []) :=
  (replace_reads_then_replaces c_datablock_get_int 0 ⟨[]⟩ "s" "n" 7).1
    { kind := .DBS_NAME_NOT_FOUND,
      reason := some "Could not get value at (section, name): (s, n)" }
    c_datablock_replace_int (by decide)

theorem directGetScalar_error_kind {α : Type}
    (getter : c_datablock → String → String → α → DATABLOCK_STATUS × α)
    (defaultVal : α) (db : DataBlock) (sec n : String) (e : CosmosisError)
    (h : directGetScalar getter defaultVal db sec n = .error e) :
    e.kind ≠ .DBS_SUCCESS := by
  obtain ⟨hk, hne⟩ := wrap_error_kind _ _ _ e h
  rw [hk]; exact hne

theorem directPutScalar_error_kind {α : Type}
    (putter : c_datablock → String → String → α → DATABLOCK_STATUS × c_datablock)
    (db : DataBlock) (sec n : String) (obj : α) (e : CosmosisError)
    (h : (directPutScalar putter db sec n obj).1 = .error e) :
    e.kind ≠ .DBS_SUCCESS := by
  obtain ⟨hk, hne⟩ := wrap_error_kind _ _ _ e h
  rw [hk]; exact hne

theorem directReplaceScalar_error_kind {α : Type}
    (getter : c_datablock → String → String → α → DATABLOCK_STATUS × α)
    (defaultVal : α)
    (replacer : c_datablock → String → String → α → DATABLOCK_STATUS × c_datablock)
    (db : DataBlock) (sec n : String) (obj : α) (e : CosmosisError)
    (h : (directReplaceScalar getter defaultVal replacer db sec n obj).1 = .error e) :
    e.kind ≠ .DBS_SUCCESS := by
  unfold directReplaceScalar at h
  cases hg : directGetScalar getter defaultVal db sec n with
  | error e0 =>
    rw [hg] at h
    simp at h
    subst h
    exact directGetScalar_error_kind getter defaultVal db sec n e0 hg
  | ok old =>
    rw [hg] at h
    simp only at h
    obtain ⟨hk, hne⟩ := wrap_error_kind _ _ _ e h
    rw [hk]; exact hne

theorem insertScalar_error_kind {α : Type}
    (getter : c_datablock → String → String → α → DATABLOCK_STATUS × α)
    (defaultVal : α)
    (putter replacer : c_datablock → String → String → α → DATABLOCK_STATUS × c_datablock)
    (db : DataBlock) (sec n : String) (obj : α) (e : CosmosisError)
    (h : (insertScalar getter defaultVal putter replacer db sec n obj).1 = .error e) :
    e.kind ≠ .DBS_SUCCESS := by
  unfold insertScalar at h
  split at h
  · simp only at h
    cases hr : (directReplaceScalar getter defaultVal replacer db sec n obj).1 with
    | error e0 =>
      rw [hr] at h
      simp [Except.map] at h
      subst h
      exact directReplaceScalar_error_kind getter defaultVal replacer db sec n obj
        e0 hr
    | ok v =>
      rw [hr] at h
      simp [Except.map] at h
  · simp only at h
    cases hr : (directPutScalar putter db sec n obj).1 with
    | error e0 =>
      rw [hr] at h
      simp [Except.map] at h
      subst h
      exact directPutScalar_error_kind putter db sec n obj e0 hr
    | ok v =>
      rw [hr] at h
      simp [Except.map] at h

theorem vecDirectGet_error_kind {α : Type}
    (getter : c_datablock → String → String → List α → Int →
      DATABLOCK_STATUS × List α × Int)
    (uninit : α) (db : DataBlock) (sec n : String) (e : CosmosisError)
    (h : vecDirectGet getter uninit db sec n = .error e) :
    e.kind ≠ .DBS_SUCCESS := by
  unfold vecDirectGet at h
  dsimp only at h
  split at h
  · split at h
    · injection h with h1
      rw [← h1]
      simp
    · injection h with h1
      rw [← h1]
      simp
  · obtain ⟨hk, hne⟩ := wrap_error_kind _ _ _ e h
    rw [hk]; exact hne

theorem vecDirectPut_error_kind {α : Type}
    (putter : c_datablock → String → String → List α → Int →
      DATABLOCK_STATUS × c_datablock)
    (db : DataBlock) (sec n : String) (obj : List α) (e : CosmosisError)
    (h : (vecDirectPut putter db sec n obj).1 = .error e) :
    e.kind ≠ .DBS_SUCCESS := by
  obtain ⟨hk, hne⟩ := wrap_error_kind _ _ _ e h
  rw [hk]; exact hne

theorem vecDirectReplace_error_kind {α : Type}
    (getter : c_datablock → String → String → List α → Int →
      DATABLOCK_STATUS × List α × Int)
    (uninit : α)
    (replacer : c_datablock → String → String → List α → Int →
      DATABLOCK_STATUS × c_datablock)
    (db : DataBlock) (sec n : String) (obj : List α) (e : CosmosisError)
    (h : (vecDirectReplace getter uninit replacer db sec n obj).1 = .error e) :
    e.kind ≠ .DBS_SUCCESS := by
  unfold vecDirectReplace at h
  cases hg : vecDirectGet getter uninit db sec n with
  | error e0 =>
    rw [hg] at h
    simp at h
    subst h
    exact vecDirectGet_error_kind getter uninit db sec n e0 hg
  | ok old =>
    rw [hg] at h
    simp only at h
    obtain ⟨hk, hne⟩ := wrap_error_kind _ _ _ e h
    rw [hk]; exact hne

theorem cstringDirectGet_error_kind (db : DataBlock) (sec n : String)
    (e : CosmosisError) (h : cstringDirectGet db sec n = .ok (.error e)) :
    e.kind ≠ .DBS_SUCCESS := by
  unfold cstringDirectGet at h
  dsimp only at h
  split at h
  · split at h
    · simp at h
    · simp at h
  · next hcond =>
    injection h with h1
    injection h1 with h2
    rw [← h2]
    exact hcond

theorem cstringDirectPut_error_kind (db : DataBlock) (sec n : String)
    (obj : Bytes) (e : CosmosisError)
    (h : (cstringDirectPut db sec n obj).1 = .error e) :
    e.kind ≠ .DBS_SUCCESS := by
  obtain ⟨hk, hne⟩ := wrap_error_kind _ _ _ e h
  rw [hk]; exact hne

theorem getString_error_kind (db : DataBlock) (sec n : String)
    (e : CosmosisError) (h : db.getString sec n = .ok (.error e)) :
    e.kind ≠ .DBS_SUCCESS := by
  unfold DataBlock.getString at h
  split at h
  · simp at h
  · next e0 heq =>
    injection h with h1
    injection h1 with h2
    subst h2
    exact cstringDirectGet_error_kind db sec n e0 heq
  · split at h <;> simp at h

theorem cstringDirectReplace_error_kind (db : DataBlock) (sec n : String)
    (obj : Bytes) (r : CosmosisResult Bytes × DataBlock) (e : CosmosisError)
    (hr : cstringDirectReplace db sec n obj = .ok r) (h : r.1 = .error e) :
    e.kind ≠ .DBS_SUCCESS := by
  unfold cstringDirectReplace at hr
  split at hr
  · cases hr
  · next e0 heq =>
    injection hr with h1
    subst h1
    simp at h
    subst h
    exact cstringDirectGet_error_kind db sec n e0 heq
  · next result heq =>
    dsimp only at hr
    injection hr with h1
    subst h1
    simp only at h
    obtain ⟨hk, hne⟩ := wrap_error_kind _ _ _ e h
    rw [hk]; exact hne

/-- C9: errors and successes are faithful to the native status.
`wrap_cosmosis_result` yields `Ok` exactly on `DBS_SUCCESS` and otherwise
an error carrying that very status; consequently every error value
produced by the scalar, vector and string get/put/replace/insert
implementations — for any behaviour of the native entry points — carries
a `kind` different from `DBS_SUCCESS` (the two locally-constructed vector
errors carry `DBS_WRONG_VALUE_TYPE` and `DBS_NAME_NOT_FOUND`). -/
theorem errors_never_carry_success :
    (∀ (α : Type) (err : DATABLOCK_STATUS) (obj : α) (r : Option String),
       (wrap_cosmosis_result err obj r = .ok obj ↔ err = .DBS_SUCCESS) ∧
       ∀ e, wrap_cosmosis_result err obj r = .error e →
         e.kind = err ∧ err ≠ .DBS_SUCCESS) ∧
    (∀ (α : Type) getter (defaultVal : α) (db : DataBlock) (sec n : String) e,
       directGetScalar getter defaultVal db sec n = .error e →
       e.kind ≠ .DBS_SUCCESS) ∧
    (∀ (α : Type) putter (db : DataBlock) (sec n : String) (obj : α) e,
       (directPutScalar putter db sec n obj).1 = .error e →
       e.kind ≠ .DBS_SUCCESS) ∧
    (∀ (α : Type) getter (defaultVal : α) replacer (db : DataBlock)
       (sec n : String) (obj : α) e,
       (directReplaceScalar getter defaultVal replacer db sec n obj).1 = .error e →
       e.kind ≠ .DBS_SUCCESS) ∧
    (∀ (α : Type) getter (defaultVal : α) putter replacer (db : DataBlock)
       (sec n : String) (obj : α) e,
       (insertScalar getter defaultVal putter replacer db sec n obj).1 = .error e →
       e.kind ≠ .DBS_SUCCESS) ∧
    (∀ (α : Type) getter (uninit : α) (db : DataBlock) (sec n : String) e,
       vecDirectGet getter uninit db sec n = .error e →
       e.kind ≠ .DBS_SUCCESS) ∧
    (∀ (α : Type) putter (db : DataBlock) (sec n : String) (obj : List α) e,
       (vecDirectPut putter db sec n obj).1 = .error e →
       e.kind ≠ .DBS_SUCCESS) ∧
    (∀ (α : Type) getter (uninit : α) replacer (db : DataBlock)
       (sec n : String) (obj : List α) e,
       (vecDirectReplace getter uninit replacer db sec n obj).1 = .error e →
       e.kind ≠ .DBS_SUCCESS) ∧
    (∀ (db : DataBlock) (sec n : String) e,
       cstringDirectGet db sec n = .ok (.error e) → e.kind ≠ .DBS_SUCCESS) ∧
    (∀ (db : DataBlock) (sec n : String) (obj : Bytes) e,
       (cstringDirectPut db sec n obj).1 = .error e → e.kind ≠ .DBS_SUCCESS) ∧
    (∀ (db : DataBlock) (sec n : String) (obj : Bytes) r e,
       cstringDirectReplace db sec n obj = .ok r → r.1 = .error e →
       e.kind ≠ .DBS_SUCCESS) ∧
    (∀ (db : DataBlock) (sec n : String) e,
       db.getString sec n = .ok (.error e) → e.kind ≠ .DBS_SUCCESS) := by
  refine ⟨?_, fun α => directGetScalar_error_kind,
    fun α => directPutScalar_error_kind,
    fun α => directReplaceScalar_error_kind,
    fun α => insertScalar_error_kind,
    fun α => vecDirectGet_error_kind,
    fun α => vecDirectPut_error_kind,
    fun α => vecDirectReplace_error_kind,
    cstringDirectGet_error_kind,
    fun db sec n obj => cstringDirectPut_error_kind db sec n obj,
    cstringDirectReplace_error_kind,
    getString_error_kind⟩
  intro α err obj r
  constructor
  · unfold wrap_cosmosis_result
    split <;> simp_all
  · exact fun e h => wrap_error_kind err obj r e h

/-- Witness for C9 at a concrete error: the `c_int` getter on the empty
block produces a name-not-found error, whose kind is not
`DBS_SUCCESS`. -/
theorem errors_never_carry_success_witness :
    (CosmosisError.mk .DBS_NAME_NOT_FOUND
       (some "Could not get value at (section, name): (s, n)")).kind ≠
      DATABLOCK_STATUS.DBS_SUCCESS :=
  errors_never_carry_success.2.1 c_int c_datablock_get_int 0 ⟨[]⟩ "s" "n"
    (CosmosisError.mk .DBS_NAME_NOT_FOUND
       (some "Could not get value at (section, name): (s, n)"))
    (by decide)

/-- C2: for a (section, name) never written, every typed getter — the four
scalars, the three vector types and `String` — reports
`DBS_NAME_NOT_FOUND`, `contains` is false, and `get_type` is `None`. -/
theorem never_written_behaviour (db : DataBlock) (sec n : String)
    (h : lookupEntry db.ptr sec n = none) :
    errKind (db.getInt sec n) = some .DBS_NAME_NOT_FOUND ∧
    errKind (db.getBool sec n) = some .DBS_NAME_NOT_FOUND ∧
    errKind (db.getDouble sec n) = some .DBS_NAME_NOT_FOUND ∧
    errKind (db.getComplex sec n) = some .DBS_NAME_NOT_FOUND ∧
    errKind (db.getVecDouble sec n) = some .DBS_NAME_NOT_FOUND ∧
    errKind (db.getVecInt sec n) = some .DBS_NAME_NOT_FOUND ∧
    errKind (db.getVecComplex sec n) = some .DBS_NAME_NOT_FOUND ∧
    panicErrKind (db.getString sec n) = some .DBS_NAME_NOT_FOUND ∧
    db.contains sec n = false ∧
    db.get_type sec n = none := by
  have hv : c_datablock_has_value db.ptr sec n = false := by
    simp [c_datablock_has_value, h]
  refine ⟨?_, ?_, ?_, ?_, ?_, ?_, ?_, ?_, hv, ?_⟩
  · simp [DataBlock.getInt, directGetScalar, c_datablock_get_int, nativeGet, h,
      wrap_cosmosis_result, errKind]
  · simp [DataBlock.getBool, directGetScalar, c_datablock_get_bool, nativeGet, h,
      wrap_cosmosis_result, errKind]
  · simp [DataBlock.getDouble, directGetScalar, c_datablock_get_double, nativeGet,
      h, wrap_cosmosis_result, errKind]
  · simp [DataBlock.getComplex, directGetScalar, c_datablock_get_complex,
      nativeGet, h, wrap_cosmosis_result, errKind]
  · simp [DataBlock.getVecDouble, vecDirectGet, c_datablock_get_array_length, h,
      DataBlock.contains, hv, errKind]
  · simp [DataBlock.getVecInt, vecDirectGet, c_datablock_get_array_length, h,
      DataBlock.contains, hv, errKind]
  · simp [DataBlock.getVecComplex, vecDirectGet, c_datablock_get_array_length, h,
      DataBlock.contains, hv, errKind]
  · simp [DataBlock.getString, cstringDirectGet, c_datablock_get_string, h,
      panicErrKind, errKind]
  · simp [DataBlock.get_type, c_datablock_get_type, getTypeWrap, h]

/-- Witness for C2 at the empty block: the `c_int` getter reports
name-not-found. -/
theorem never_written_behaviour_witness :
    errKind ((DataBlock.mk []).getInt "s" "n") =
      some DATABLOCK_STATUS.DBS_NAME_NOT_FOUND :=
  (never_written_behaviour ⟨[]⟩ "s" "n" (by decide)).1

/-- C1: for each scalar type T (`c_int`, `bool`, `f64`, `Complex<f64>`)
and any absent (section, name), `put::<T>` succeeds and stores the value
at the front of the store; on the resulting block `get::<T>` returns
exactly the stored value, while `get::<U>` for every other supported type
U — the other three scalars, the three vector types and `String` —
returns an error of kind `DBS_WRONG_VALUE_TYPE`. -/
theorem put_get_roundtrip_scalar (db : DataBlock) (sec n : String)
    (h : lookupEntry db.ptr sec n = none) :
    (∀ v : c_int,
      db.putInt sec n v = (.ok (), ⟨((sec, n), .VInt v) :: db.ptr⟩) ∧
      DataBlock.getInt ⟨((sec, n), .VInt v) :: db.ptr⟩ sec n = .ok v ∧
      errKind (DataBlock.getBool ⟨((sec, n), .VInt v) :: db.ptr⟩ sec n) =
        some .DBS_WRONG_VALUE_TYPE ∧
      errKind (DataBlock.getDouble ⟨((sec, n), .VInt v) :: db.ptr⟩ sec n) =
        some .DBS_WRONG_VALUE_TYPE ∧
      errKind (DataBlock.getComplex ⟨((sec, n), .VInt v) :: db.ptr⟩ sec n) =
        some .DBS_WRONG_VALUE_TYPE ∧
      errKind (DataBlock.getVecDouble ⟨((sec, n), .VInt v) :: db.ptr⟩ sec n) =
        some .DBS_WRONG_VALUE_TYPE ∧
      errKind (DataBlock.getVecInt ⟨((sec, n), .VInt v) :: db.ptr⟩ sec n) =
        some .DBS_WRONG_VALUE_TYPE ∧
      errKind (DataBlock.getVecComplex ⟨((sec, n), .VInt v) :: db.ptr⟩ sec n) =
        some .DBS_WRONG_VALUE_TYPE ∧
      panicErrKind (DataBlock.getString ⟨((sec, n), .VInt v) :: db.ptr⟩ sec n) =
        some .DBS_WRONG_VALUE_TYPE) ∧
    (∀ v : Bool,
      db.putBool sec n v = (.ok (), ⟨((sec, n), .VBool v) :: db.ptr⟩) ∧
      DataBlock.getBool ⟨((sec, n), .VBool v) :: db.ptr⟩ sec n = .ok v ∧
      errKind (DataBlock.getInt ⟨((sec, n), .VBool v) :: db.ptr⟩ sec n) =
        some .DBS_WRONG_VALUE_TYPE ∧
      errKind (DataBlock.getDouble ⟨((sec, n), .VBool v) :: db.ptr⟩ sec n) =
        some .DBS_WRONG_VALUE_TYPE ∧
      errKind (DataBlock.getComplex ⟨((sec, n), .VBool v) :: db.ptr⟩ sec n) =
        some .DBS_WRONG_VALUE_TYPE ∧
      errKind (DataBlock.getVecDouble ⟨((sec, n), .VBool v) :: db.ptr⟩ sec n) =
        some .DBS_WRONG_VALUE_TYPE ∧
      errKind (DataBlock.getVecInt ⟨((sec, n), .VBool v) :: db.ptr⟩ sec n) =
        some .DBS_WRONG_VALUE_TYPE ∧
      errKind (DataBlock.getVecComplex ⟨((sec, n), .VBool v) :: db.ptr⟩ sec n) =
        some .DBS_WRONG_VALUE_TYPE ∧
      panicErrKind (DataBlock.getString ⟨((sec, n), .VBool v) :: db.ptr⟩ sec n) =
        some .DBS_WRONG_VALUE_TYPE) ∧
    (∀ v : f64,
      db.putDouble sec n v = (.ok (), ⟨((sec, n), .VDouble v) :: db.ptr⟩) ∧
      DataBlock.getDouble ⟨((sec, n), .VDouble v) :: db.ptr⟩ sec n = .ok v ∧
      errKind (DataBlock.getInt ⟨((sec, n), .VDouble v) :: db.ptr⟩ sec n) =
        some .DBS_WRONG_VALUE_TYPE ∧
      errKind (DataBlock.getBool ⟨((sec, n), .VDouble v) :: db.ptr⟩ sec n) =
        some .DBS_WRONG_VALUE_TYPE ∧
      errKind (DataBlock.getComplex ⟨((sec, n), .VDouble v) :: db.ptr⟩ sec n) =
        some .DBS_WRONG_VALUE_TYPE ∧
      errKind (DataBlock.getVecDouble ⟨((sec, n), .VDouble v) :: db.ptr⟩ sec n) =
        some .DBS_WRONG_VALUE_TYPE ∧
      errKind (DataBlock.getVecInt ⟨((sec, n), .VDouble v) :: db.ptr⟩ sec n) =
        some .DBS_WRONG_VALUE_TYPE ∧
      errKind (DataBlock.getVecComplex ⟨((sec, n), .VDouble v) :: db.ptr⟩ sec n) =
        some .DBS_WRONG_VALUE_TYPE ∧
      panicErrKind (DataBlock.getString ⟨((sec, n), .VDouble v) :: db.ptr⟩ sec n) =
        some .DBS_WRONG_VALUE_TYPE) ∧
    (∀ v : Complex64,
      db.putComplex sec n v = (.ok (), ⟨((sec, n), .VComplex v) :: db.ptr⟩) ∧
      DataBlock.getComplex ⟨((sec, n), .VComplex v) :: db.ptr⟩ sec n = .ok v ∧
      errKind (DataBlock.getInt ⟨((sec, n), .VComplex v) :: db.ptr⟩ sec n) =
        some .DBS_WRONG_VALUE_TYPE ∧
      errKind (DataBlock.getBool ⟨((sec, n), .VComplex v) :: db.ptr⟩ sec n) =
        some .DBS_WRONG_VALUE_TYPE ∧
      errKind (DataBlock.getDouble ⟨((sec, n), .VComplex v) :: db.ptr⟩ sec n) =
        some .DBS_WRONG_VALUE_TYPE ∧
      errKind (DataBlock.getVecDouble ⟨((sec, n), .VComplex v) :: db.ptr⟩ sec n) =
        some .DBS_WRONG_VALUE_TYPE ∧
      errKind (DataBlock.getVecInt ⟨((sec, n), .VComplex v) :: db.ptr⟩ sec n) =
        some .DBS_WRONG_VALUE_TYPE ∧
      errKind (DataBlock.getVecComplex ⟨((sec, n), .VComplex v) :: db.ptr⟩ sec n) =
        some .DBS_WRONG_VALUE_TYPE ∧
      panicErrKind (DataBlock.getString ⟨((sec, n), .VComplex v) :: db.ptr⟩ sec n) =
        some .DBS_WRONG_VALUE_TYPE) := by
  have hv : c_datablock_has_value db.ptr sec n = false := by
    simp [c_datablock_has_value, h]
  refine ⟨fun v => ⟨?_, ?_, ?_, ?_, ?_, ?_, ?_, ?_, ?_⟩,
    fun v => ⟨?_, ?_, ?_, ?_, ?_, ?_, ?_, ?_, ?_⟩,
    fun v => ⟨?_, ?_, ?_, ?_, ?_, ?_, ?_, ?_, ?_⟩,
    fun v => ⟨?_, ?_, ?_, ?_, ?_, ?_, ?_, ?_, ?_⟩⟩ <;>
  simp [DataBlock.putInt, DataBlock.putBool, DataBlock.putDouble,
    DataBlock.putComplex, directPutScalar, c_datablock_put_int,
    c_datablock_put_bool, c_datablock_put_double, c_datablock_put_complex,
    nativePut, h, hv, DataBlock.getInt, DataBlock.getBool, DataBlock.getDouble,
    DataBlock.getComplex, directGetScalar, c_datablock_get_int,
    c_datablock_get_bool, c_datablock_get_double, c_datablock_get_complex,
    nativeGet, prjInt, prjBool, prjDouble, prjComplex, lookupEntry_cons_self,
    DataBlock.getVecDouble, DataBlock.getVecInt, DataBlock.getVecComplex,
    vecDirectGet, c_datablock_get_array_length, DataBlock.contains,
    c_datablock_has_value, DataBlock.getString, cstringDirectGet,
    c_datablock_get_string, prjString, wrap_cosmosis_result, errKind,
    panicErrKind]

/-- Witness for C1 at the empty block: `put::<c_int>` of `5` succeeds and
stores the value. -/
theorem put_get_roundtrip_scalar_witness :
    (DataBlock.mk []).putInt "s" "n" 5 =
      (.ok (), DataBlock.mk [(("s", "n"), CosmosisValue.VInt 5)]) :=
  ((put_get_roundtrip_scalar ⟨[]⟩ "s" "n" (by decide)).1 5).1

theorem getVecDouble_cons (st : c_datablock) (sec n : String) (xs : List f64) :
    DataBlock.getVecDouble ⟨((sec, n), .VDoubleArray xs) :: st⟩ sec n = .ok xs := by
  unfold DataBlock.getVecDouble vecDirectGet
  have hlen : c_datablock_get_array_length
      (((sec, n), CosmosisValue.VDoubleArray xs) :: st) sec n = (xs.length : Int) := by
    simp [c_datablock_get_array_length, lookupEntry_cons_self]
  dsimp only
  rw [hlen, if_neg (by omega)]
  simp [c_datablock_get_double_array_1d, nativeGetArray, lookupEntry_cons_self,
    prjDoubleArray, wrap_cosmosis_result]

theorem getVecInt_cons (st : c_datablock) (sec n : String) (xs : List c_int) :
    DataBlock.getVecInt ⟨((sec, n), .VIntArray xs) :: st⟩ sec n = .ok xs := by
  unfold DataBlock.getVecInt vecDirectGet
  have hlen : c_datablock_get_array_length
      (((sec, n), CosmosisValue.VIntArray xs) :: st) sec n = (xs.length : Int) := by
    simp [c_datablock_get_array_length, lookupEntry_cons_self]
  dsimp only
  rw [hlen, if_neg (by omega)]
  simp [c_datablock_get_int_array_1d, nativeGetArray, lookupEntry_cons_self,
    prjIntArray, wrap_cosmosis_result]

theorem getVecComplex_cons (st : c_datablock) (sec n : String)
    (xs : List Complex64) :
    DataBlock.getVecComplex ⟨((sec, n), .VComplexArray xs) :: st⟩ sec n = .ok xs := by
  unfold DataBlock.getVecComplex vecDirectGet
  have hlen : c_datablock_get_array_length
      (((sec, n), CosmosisValue.VComplexArray xs) :: st) sec n = (xs.length : Int) := by
    simp [c_datablock_get_array_length, lookupEntry_cons_self]
  dsimp only
  rw [hlen, if_neg (by omega)]
  simp [c_datablock_get_complex_array_1d, nativeGetArray, lookupEntry_cons_self,
    prjComplexArray, wrap_cosmosis_result]

theorem usizeAsCInt_of_lt (len : Nat) (h : len < 2 ^ 31) :
    usizeAsCInt len = (len : Int) := by
  unfold usizeAsCInt
  rw [Nat.mod_eq_of_lt (by omega)]
  rw [if_pos h]

theorem putVecDouble_cons (db : DataBlock) (sec n : String) (xs : List f64)
    (hv : c_datablock_has_value db.ptr sec n = false)
    (hx : xs.length < 2 ^ 31) :
    db.putVecDouble sec n xs =
      (.ok (), ⟨((sec, n), .VDoubleArray xs) :: db.ptr⟩) := by
  unfold DataBlock.putVecDouble vecDirectPut c_datablock_put_double_array_1d
    nativePutArray
  dsimp only
  rw [usizeAsCInt_of_lt xs.length hx, if_neg (by omega)]
  simp [hv, wrap_cosmosis_result]

theorem putVecInt_cons (db : DataBlock) (sec n : String) (xs : List c_int)
    (hv : c_datablock_has_value db.ptr sec n = false)
    (hx : xs.length < 2 ^ 31) :
    db.putVecInt sec n xs =
      (.ok (), ⟨((sec, n), .VIntArray xs) :: db.ptr⟩) := by
  unfold DataBlock.putVecInt vecDirectPut c_datablock_put_int_array_1d
    nativePutArray
  dsimp only
  rw [usizeAsCInt_of_lt xs.length hx, if_neg (by omega)]
  simp [hv, wrap_cosmosis_result]

theorem putVecComplex_cons (db : DataBlock) (sec n : String)
    (xs : List Complex64)
    (hv : c_datablock_has_value db.ptr sec n = false)
    (hx : xs.length < 2 ^ 31) :
    db.putVecComplex sec n xs =
      (.ok (), ⟨((sec, n), .VComplexArray xs) :: db.ptr⟩) := by
  unfold DataBlock.putVecComplex vecDirectPut c_datablock_put_complex_array_1d
    nativePutArray
  dsimp only
  rw [usizeAsCInt_of_lt xs.length hx, if_neg (by omega)]
  simp [hv, wrap_cosmosis_result]

/-- C6 counterexample: the element count is passed through the truncating
cast `obj.len() as raw::c_int` (`src/lib.rs` line 379), so putting a
double array of `2 ^ 32` elements at an absent key passes count `0`: the
put succeeds but silently stores the empty array, and the subsequent get
returns `Ok []` instead of the stored sequence — refuting the claim's
unrestricted round-trip for non-empty arrays. -/
theorem vec_put_count_wraps_counterexample :
    (DataBlock.mk []).putVecDouble "s" "n" (List.replicate (2 ^ 32) ⟨0⟩) =
      (.ok (), DataBlock.mk [(("s", "n"), CosmosisValue.VDoubleArray [])]) ∧
    DataBlock.getVecDouble
        (DataBlock.mk [(("s", "n"), CosmosisValue.VDoubleArray [])]) "s" "n" =
      .ok [] ∧
    List.replicate (2 ^ 32) (f64.mk 0) ≠ ([] : List f64) := by
  refine ⟨?_, getVecDouble_cons [] "s" "n" [], ?_⟩
  · have hcast : usizeAsCInt (List.replicate (2 ^ 32) (f64.mk 0)).length = 0 := by
      rw [List.length_replicate]
      unfold usizeAsCInt
      rw [Nat.mod_self]
      rw [if_pos (by omega)]
      rfl
    have htake : (List.replicate (2 ^ 32) (f64.mk 0)).take (Int.toNat 0) = [] :=
      List.take_zero _
    unfold DataBlock.putVecDouble vecDirectPut c_datablock_put_double_array_1d
      nativePutArray
    dsimp only
    rw [hcast, if_neg (by omega), htake]
    simp [c_datablock_has_value, lookupEntry, wrap_cosmosis_result]
  · intro hc
    have hlen := congrArg List.length hc
    rw [List.length_replicate] at hlen
    exact absurd hlen (by decide)

/-- C6 (amended): for every vector element type and absent (section,
name): the getter on the unmodified block reports `DBS_NAME_NOT_FOUND`,
while `put` of any array `xs` of fewer than `2 ^ 31` elements — so that
the count survives the `as raw::c_int` cast — succeeds and a subsequent
get returns `Ok xs`, the exact element sequence in order.  In particular
putting `[]` then getting yields `Ok []`, which is distinct from the
name-not-found error an absent entry produces. -/
theorem vec_put_get_roundtrip_bounded (db : DataBlock) (sec n : String)
    (h : lookupEntry db.ptr sec n = none) :
    (errKind (db.getVecDouble sec n) = some .DBS_NAME_NOT_FOUND ∧
     ∀ xs : List f64, xs.length < 2 ^ 31 →
       db.putVecDouble sec n xs =
         (.ok (), ⟨((sec, n), .VDoubleArray xs) :: db.ptr⟩) ∧
       DataBlock.getVecDouble ⟨((sec, n), .VDoubleArray xs) :: db.ptr⟩ sec n =
         .ok xs) ∧
    (errKind (db.getVecInt sec n) = some .DBS_NAME_NOT_FOUND ∧
     ∀ xs : List c_int, xs.length < 2 ^ 31 →
       db.putVecInt sec n xs =
         (.ok (), ⟨((sec, n), .VIntArray xs) :: db.ptr⟩) ∧
       DataBlock.getVecInt ⟨((sec, n), .VIntArray xs) :: db.ptr⟩ sec n =
         .ok xs) ∧
    (errKind (db.getVecComplex sec n) = some .DBS_NAME_NOT_FOUND ∧
     ∀ xs : List Complex64, xs.length < 2 ^ 31 →
       db.putVecComplex sec n xs =
         (.ok (), ⟨((sec, n), .VComplexArray xs) :: db.ptr⟩) ∧
       DataBlock.getVecComplex ⟨((sec, n), .VComplexArray xs) :: db.ptr⟩ sec n =
         .ok xs) := by
  have hv : c_datablock_has_value db.ptr sec n = false := by
    simp [c_datablock_has_value, h]
  refine ⟨⟨?_, fun xs hx => ⟨putVecDouble_cons db sec n xs hv hx,
      getVecDouble_cons db.ptr sec n xs⟩⟩,
    ⟨?_, fun xs hx => ⟨putVecInt_cons db sec n xs hv hx,
      getVecInt_cons db.ptr sec n xs⟩⟩,
    ⟨?_, fun xs hx => ⟨putVecComplex_cons db sec n xs hv hx,
      getVecComplex_cons db.ptr sec n xs⟩⟩⟩ <;>
  simp [DataBlock.getVecDouble, DataBlock.getVecInt, DataBlock.getVecComplex,
    vecDirectGet, c_datablock_get_array_length, DataBlock.contains, hv, h,
    errKind]

/-- Witness for the amended C6 at the empty block: putting the empty
double array (length `0 < 2 ^ 31`) then getting returns `Ok []`, distinct
from the name-not-found error the absent entry produced. -/
theorem vec_put_get_roundtrip_bounded_witness :
    DataBlock.getVecDouble
        ⟨((("s", "n"), CosmosisValue.VDoubleArray []) :: (DataBlock.mk []).ptr)⟩
        "s" "n" = .ok [] :=
  (((vec_put_get_roundtrip_bounded ⟨[]⟩ "s" "n" (by decide)).1.2) []
    (by decide)).2

/-- C3: `insert::<T>` for each insertable type T (the four `Sized` scalar
types): on an absent key it takes the `put` path — the resulting store is
exactly `put`'s store, `put` succeeds, and `insert` yields `Ok None` —
and on a key present with type T it replaces the stored value in place,
yields `Ok (Some old_value)`, and a subsequent `get::<T>` returns the new
value. -/
theorem insert_absent_put_present_replace (db : DataBlock) (sec n : String) :
    (lookupEntry db.ptr sec n = none →
      (∀ v : c_int,
        db.insertInt sec n v = (.ok none, ⟨((sec, n), .VInt v) :: db.ptr⟩) ∧
        db.putInt sec n v = (.ok (), ⟨((sec, n), .VInt v) :: db.ptr⟩)) ∧
      (∀ v : Bool,
        db.insertBool sec n v = (.ok none, ⟨((sec, n), .VBool v) :: db.ptr⟩) ∧
        db.putBool sec n v = (.ok (), ⟨((sec, n), .VBool v) :: db.ptr⟩)) ∧
      (∀ v : f64,
        db.insertDouble sec n v = (.ok none, ⟨((sec, n), .VDouble v) :: db.ptr⟩) ∧
        db.putDouble sec n v = (.ok (), ⟨((sec, n), .VDouble v) :: db.ptr⟩)) ∧
      (∀ v : Complex64,
        db.insertComplex sec n v = (.ok none, ⟨((sec, n), .VComplex v) :: db.ptr⟩) ∧
        db.putComplex sec n v = (.ok (), ⟨((sec, n), .VComplex v) :: db.ptr⟩))) ∧
    (∀ old v : c_int, lookupEntry db.ptr sec n = some (.VInt old) →
      db.insertInt sec n v =
        (.ok (some old), ⟨setEntry db.ptr sec n (.VInt v)⟩) ∧
      DataBlock.getInt ⟨setEntry db.ptr sec n (.VInt v)⟩ sec n = .ok v) ∧
    (∀ old v, lookupEntry db.ptr sec n = some (.VBool old) →
      db.insertBool sec n v =
        (.ok (some old), ⟨setEntry db.ptr sec n (.VBool v)⟩) ∧
      DataBlock.getBool ⟨setEntry db.ptr sec n (.VBool v)⟩ sec n = .ok v) ∧
    (∀ old v, lookupEntry db.ptr sec n = some (.VDouble old) →
      db.insertDouble sec n v =
        (.ok (some old), ⟨setEntry db.ptr sec n (.VDouble v)⟩) ∧
      DataBlock.getDouble ⟨setEntry db.ptr sec n (.VDouble v)⟩ sec n = .ok v) ∧
    (∀ old v, lookupEntry db.ptr sec n = some (.VComplex old) →
      db.insertComplex sec n v =
        (.ok (some old), ⟨setEntry db.ptr sec n (.VComplex v)⟩) ∧
      DataBlock.getComplex ⟨setEntry db.ptr sec n (.VComplex v)⟩ sec n = .ok v) := by
  constructor
  · intro h
    have hv : c_datablock_has_value db.ptr sec n = false := by
      simp [c_datablock_has_value, h]
    refine ⟨fun v => ⟨?_, ?_⟩, fun v => ⟨?_, ?_⟩, fun v => ⟨?_, ?_⟩,
      fun v => ⟨?_, ?_⟩⟩ <;>
    simp [DataBlock.insertInt, DataBlock.insertBool, DataBlock.insertDouble,
      DataBlock.insertComplex, insertScalar, DataBlock.contains, hv,
      DataBlock.putInt, DataBlock.putBool, DataBlock.putDouble,
      DataBlock.putComplex, directPutScalar, c_datablock_put_int,
      c_datablock_put_bool, c_datablock_put_double, c_datablock_put_complex,
      nativePut, h, wrap_cosmosis_result, Except.map]
  refine ⟨fun old v hp => ?_, fun old v hp => ?_, fun old v hp => ?_,
    fun old v hp => ?_⟩ <;>
  · have hset := fun nv => lookupEntry_setEntry_self db.ptr sec n _ nv hp
    refine ⟨?_, ?_⟩ <;>
    simp [DataBlock.insertInt, DataBlock.insertBool, DataBlock.insertDouble,
      DataBlock.insertComplex, insertScalar, DataBlock.contains,
      c_datablock_has_value, hp, hset, directReplaceScalar, directGetScalar,
      DataBlock.getInt, DataBlock.getBool, DataBlock.getDouble,
      DataBlock.getComplex, c_datablock_get_int, c_datablock_get_bool,
      c_datablock_get_double, c_datablock_get_complex, c_datablock_replace_int,
      c_datablock_replace_bool, c_datablock_replace_double,
      c_datablock_replace_complex, nativeGet, nativeReplace, prjInt, prjBool,
      prjDouble, prjComplex, wrap_cosmosis_result, Except.map]

/-- Witness for C3 at a block holding an integer: inserting `2` over the
stored `1` replaces it in place and yields the old value. -/
theorem insert_absent_put_present_replace_witness :
    (DataBlock.mk [(("s", "n"), CosmosisValue.VInt 1)]).insertInt "s" "n" 2 =
      (.ok (some 1),
       ⟨setEntry [(("s", "n"), CosmosisValue.VInt 1)] "s" "n"
          (CosmosisValue.VInt 2)⟩) :=
  ((insert_absent_put_present_replace ⟨[(("s", "n"), CosmosisValue.VInt 1)]⟩
      "s" "n").2.1 1 2 (by decide)).1

/-- C8: when the native string getter reports success, `get::<String>`
panics (both at the `CStr::to_str().unwrap()` inside the `CString` getter
and hence at the top level) if the returned buffer is not valid UTF-8,
instead of returning an error value; when the buffer is valid text, the
result is `Ok` of exactly those bytes, copied into a caller-owned
string.  (The ordering of the copy relative to the release of the native
buffer is a memory-management fact outside this embedding.) -/
theorem string_get_panics_on_invalid_utf8 (db : DataBlock) (sec n : String)
    (bytes : Bytes)
    (h : c_datablock_get_string db.ptr sec n = (.DBS_SUCCESS, bytes)) :
    (validUTF8 bytes = false →
      isPanicked (cstringDirectGet db sec n) = true ∧
      isPanicked (db.getString sec n) = true) ∧
    (validUTF8 bytes = true →
      cstringDirectGet db sec n = .ok (.ok bytes) ∧
      db.getString sec n = .ok (.ok bytes)) := by
  constructor
  · intro hinv
    have hc : cstringDirectGet db sec n =
        .panicked "called Result::unwrap on an Err value: Utf8Error" := by
      simp [cstringDirectGet, h, hinv]
    exact ⟨by simp [hc, isPanicked], by simp [DataBlock.getString, hc, isPanicked]⟩
  · intro hval
    have hc : cstringDirectGet db sec n = .ok (.ok bytes) := by
      simp [cstringDirectGet, h, hval]
    exact ⟨hc, by simp [DataBlock.getString, hc, intoString, hval]⟩

/-- Witness for C8 at a block holding the invalid byte `0xFF`: the native
getter succeeds with that buffer and `get::<String>` panics. -/
theorem string_get_panics_on_invalid_utf8_witness :
    c_datablock_get_string
        (DataBlock.mk [(("s", "n"), CosmosisValue.VString [255])]).ptr "s" "n" =
      (.DBS_SUCCESS, [255]) ∧
    isPanicked ((DataBlock.mk [(("s", "n"), CosmosisValue.VString [255])]).getString
        "s" "n") = true :=
  ⟨by decide,
   ((string_get_panics_on_invalid_utf8
       ⟨[(("s", "n"), CosmosisValue.VString [255])]⟩ "s" "n" [255]
       (by decide)).1 (by decide)).2⟩

/-- C10: `insert::<T>` on a key present with a value of a different type
tag fails with `DBS_WRONG_VALUE_TYPE` — the error produced by the
pre-read inside `replace` — and the store is returned unchanged; the
native replace entry point is never invoked, witnessed by the outcome
being the same for every possible replacer. -/
theorem insert_wrong_type_rejected (db : DataBlock) (sec n : String)
    (old : CosmosisValue) (h : lookupEntry db.ptr sec n = some old) :
    (prjInt old = none → ∀ (v : c_int)
       (replacer : c_datablock → String → String → c_int → DATABLOCK_STATUS × c_datablock),
       insertScalar c_datablock_get_int 0 c_datablock_put_int replacer db sec n v =
         (.error { kind := .DBS_WRONG_VALUE_TYPE,
                   reason := some s!"Could not get value at (section, name): ({sec}, {n})" },
          db)) ∧
    (prjBool old = none → ∀ (v : Bool)
       (replacer : c_datablock → String → String → Bool → DATABLOCK_STATUS × c_datablock),
       insertScalar c_datablock_get_bool false c_datablock_put_bool replacer db sec n v =
         (.error { kind := .DBS_WRONG_VALUE_TYPE,
                   reason := some s!"Could not get value at (section, name): ({sec}, {n})" },
          db)) ∧
    (prjDouble old = none → ∀ (v : f64)
       (replacer : c_datablock → String → String → f64 → DATABLOCK_STATUS × c_datablock),
       insertScalar c_datablock_get_double ⟨0⟩ c_datablock_put_double replacer db sec n v =
         (.error { kind := .DBS_WRONG_VALUE_TYPE,
                   reason := some s!"Could not get value at (section, name): ({sec}, {n})" },
          db)) ∧
    (prjComplex old = none → ∀ (v : Complex64)
       (replacer : c_datablock → String → String → Complex64 → DATABLOCK_STATUS × c_datablock),
       insertScalar c_datablock_get_complex ⟨⟨0⟩, ⟨0⟩⟩ c_datablock_put_complex
         replacer db sec n v =
         (.error { kind := .DBS_WRONG_VALUE_TYPE,
                   reason := some s!"Could not get value at (section, name): ({sec}, {n})" },
          db)) := by
  refine ⟨fun hprj v replacer => ?_, fun hprj v replacer => ?_,
    fun hprj v replacer => ?_, fun hprj v replacer => ?_⟩ <;>
  simp [insertScalar, DataBlock.contains, c_datablock_has_value, h, hprj,
    directReplaceScalar, directGetScalar, c_datablock_get_int,
    c_datablock_get_bool, c_datablock_get_double, c_datablock_get_complex,
    nativeGet, wrap_cosmosis_result, Except.map]

/-- Witness for C10 at a block holding a boolean: `insert::<c_int>` fails
with wrong-value-type and leaves the store unchanged, for the concrete
native replacer. -/
theorem insert_wrong_type_rejected_witness :
    insertScalar c_datablock_get_int 0 c_datablock_put_int
      c_datablock_replace_int
      (DataBlock.mk [(("s", "n"), CosmosisValue.VBool true)]) "s" "n" 3 =
      (.error { kind := .DBS_WRONG_VALUE_TYPE,
                reason := some "Could not get value at (section, name): (s, n)" },
       DataBlock.mk [(("s", "n"), CosmosisValue.VBool true)]) :=
  (insert_wrong_type_rejected ⟨[(("s", "n"), CosmosisValue.VBool true)]⟩
      "s" "n" (CosmosisValue.VBool true) (by decide)).1 (by decide) 3
    c_datablock_replace_int

end CosmosisRs
